import Mathlib

set_option maxRecDepth 8000
set_option maxHeartbeats 8000000

/-
Verification of the UpSound Telegram bot (main.py / new_main.py).

The repository's reimplementable core is: regex extraction of a track id
from a URL, duration formatting, the two provider functions that build a
metadata dictionary from the streaming-service client's answers, the two
formatters that turn such a dictionary into an HTML display string, and
the track-id selection in the button callback.

Strings are modelled as Lean `String` / `List Char`.  The regular
expression `\d` of the Python source is modelled as `Char.isDigit`
(ASCII digits).  A Python dictionary with a fixed key set is modelled as
a structure whose fields are `Option`s: `none` means the key is absent.
A Python function that may raise is modelled as returning `Option`
(`none` = exception).  External calls of the providers are modelled by
an explicit environment record `Env`.
-/

namespace UpSound

/-! ### Link extractor (main.py 18-30, new_main.py 21-33)

`re.search` for the three concrete patterns `track/(\d+)`,
`album/\d+/track/(\d+)`, `playlists/\d+/\d+\?trackId=(\d+)`.
Each pattern is a sequence of literals and maximal digit runs (a greedy
`\d+` followed by a non-digit literal matches exactly the maximal digit
run), so matching a pattern at one position is deterministic; `re.search`
tries positions left to right. -/

/-- Consume a literal: returns the rest of the input if `lit` heads it. -/
def dropLit : List Char → List Char → Option (List Char)
  | [], cs => some cs
  | _ :: _, [] => none
  | l :: ls, c :: cs => if c = l then dropLit ls cs else none

/-- Maximal run of digits at the head of the input. -/
def takeDigits : List Char → List Char
  | [] => []
  | c :: cs => if c.isDigit then c :: takeDigits cs else []

/-- Input after its maximal head run of digits. -/
def dropDigits : List Char → List Char
  | [] => []
  | c :: cs => if c.isDigit then dropDigits cs else c :: cs

/-- Match `track/(\d+)` at the start of the input; returns group 1. -/
def matchTrackAt (cs : List Char) : Option (List Char) :=
  match dropLit ("track/".toList) cs with
  | none => none
  | some rest =>
    if (takeDigits rest).isEmpty then none else some (takeDigits rest)

/-- Match `album/\d+/track/(\d+)` at the start of the input; returns group 1. -/
def matchAlbumTrackAt (cs : List Char) : Option (List Char) :=
  match dropLit ("album/".toList) cs with
  | none => none
  | some r1 =>
    if (takeDigits r1).isEmpty then none else
    match dropLit ("/track/".toList) (dropDigits r1) with
    | none => none
    | some r2 =>
      if (takeDigits r2).isEmpty then none else some (takeDigits r2)

/-- Match `playlists/\d+/\d+\?trackId=(\d+)` at the start of the input. -/
def matchPlaylistAt (cs : List Char) : Option (List Char) :=
  match dropLit ("playlists/".toList) cs with
  | none => none
  | some r1 =>
    if (takeDigits r1).isEmpty then none else
    match dropLit (['/']) (dropDigits r1) with
    | none => none
    | some r2 =>
      if (takeDigits r2).isEmpty then none else
      match dropLit ("?trackId=".toList) (dropDigits r2) with
      | none => none
      | some r3 =>
        if (takeDigits r3).isEmpty then none else some (takeDigits r3)

/-- `re.search`: try the position matcher at every position, leftmost first. -/
def regexSearch (m : List Char → Option (List Char)) : List Char → Option (List Char)
  | [] => m []
  | c :: cs =>
    match m (c :: cs) with
    | some t => some t
    | none => regexSearch m cs

/-- `extract_track_id` (identical in main.py and new_main.py): try the three
patterns in order, return the first match's capture group, else `none`. -/
def extract_track_id (url : List Char) : Option (List Char) :=
  match regexSearch matchTrackAt url with
  | some t => some t
  | none =>
    match regexSearch matchAlbumTrackAt url with
    | some t => some t
    | none => regexSearch matchPlaylistAt url

/-- Variant of `extract_track_id` with the second pattern
`album/\d+/track/(\d+)` removed (for the refinement claim C9). -/
def extract_track_id_no_album (url : List Char) : Option (List Char) :=
  match regexSearch matchTrackAt url with
  | some t => some t
  | none => regexSearch matchPlaylistAt url

/-! ### Duration formatting (main.py 33-36, new_main.py 36-39)

`minutes, seconds = divmod(seconds, 60); f"{minutes}:{seconds:02d}"`,
on the non-negative integers (the remainder is below 60, so the 02d
padding is: one leading zero below ten). -/

/-- `format_duration`: minutes unpadded, seconds zero-padded to two digits. -/
def format_duration (seconds : Nat) : String :=
  toString (seconds / 60) ++ ":" ++
    (if seconds % 60 < 10 then "0" ++ toString (seconds % 60) else toString (seconds % 60))

/-! ### Upstream data model (the streaming-service client's answers)

`hasattr` probing of the Python source is modelled by `Option` fields:
`none` means the attribute is absent (or, where the source treats the two
alike, present but `None`).  Values that the source only ever interpolates
into strings (album year, genre, artist counters, the file size with its
floating-point rendering) are modelled as the already-rendered `String`. -/

structure UpArtist where
  name : String
  id : String

structure UpAlbum where
  title : String
  id : String
  year : Option String
  genre : Option String

structure UpArtistCounts where
  tracks : Option Nat
  direct_albums : Option Nat

structure UpArtistDetail where
  genres : Option (List String)
  counts : Option UpArtistCounts

structure UpAlbumDetail where
  volumes : List (List Unit)
  release_date : Option String
  label : Option String
  available : Option Bool

structure UpSimilarTrack where
  title : String
  artists : List UpArtist
  id : String

structure UpChartItem where
  track_id : String
  position : Nat
  progress : Option String
  listeners : Option Nat

structure UpTrack where
  title : String
  artists : List UpArtist
  duration_ms : Nat
  albums : List UpAlbum
  cover_url : Option String
  available : Option Bool
  available_for_premium_users : Option Bool
  lyrics_available : Option Bool
  file_size : Option String
  version : Option String
  content_warning : Option String
  explicit : Option Bool
  track_number : Option Nat
  major : Option String

/-- The external world of one provider call: the answer of every client
request the providers may issue.  `tracks` errs with the exception text
`str(e)`; the best-effort sub-lookups are `Option` (`none` = the call
raised, or — for `albumLookup` — returned a falsy value, with identical
effect in the source). `similar`: outer `none` = the call raised
(`except` sets the key to `[]`); `some none` = falsy result or missing
`similar_tracks` attribute (no key is set); `some (some l)` = a list. -/
structure Env where
  tracks : Except String UpTrack
  albumLookup : Option UpAlbumDetail
  artistLookup : String → Option UpArtistDetail
  similar : Option (Option (List UpSimilarTrack))
  chart : Option (List UpChartItem)

/-! ### The metadata dictionaries built by the providers (new_main.py 42-151) -/

/-- One entry of `info['artists_detailed']`: `name` and `id` are always
present; the other three keys only when the per-artist lookup succeeded. -/
structure ArtistInfo where
  name : String
  id : String
  genres : Option (List String) := none
  tracks_count : Option String := none
  albums_count : Option String := none

/-- One entry of `info['similar_tracks']`. -/
structure SimilarTrack where
  title : String
  artists : String
  id : String

/-- One entry of `info['chart_positions']`. -/
structure ChartPos where
  position : Nat
  progress : Option String
  listeners : Option Nat

/-- The `info` dictionary: a field is `none` when the key is absent. -/
structure InfoDict where
  error : Option String := none
  title : Option String := none
  artists : Option String := none
  duration : Option String := none
  album : Option String := none
  year : Option String := none
  genre : Option String := none
  cover_url : Option (Option String) := none
  track_id : Option String := none
  album_id : Option (Option String) := none
  album_tracks_count : Option Nat := none
  album_release_date : Option String := none
  album_label : Option String := none
  album_available : Option Bool := none
  artists_detailed : Option (List ArtistInfo) := none
  similar_tracks : Option (List SimilarTrack) := none
  available : Option Bool := none
  available_for_premium_users : Option Bool := none
  lyrics_available : Option Bool := none
  file_size : Option String := none
  version : Option (Option String) := none
  content_warning : Option (Option String) := none
  explicit : Option Bool := none
  track_number : Option Nat := none
  major : Option (Option String) := none
  chart_positions : Option (List ChartPos) := none

/-- Truthiness of an optional string (Python: `None` and `""` are falsy). -/
def optStrTruthy : Option String → Bool
  | some s => !(s == "")
  | none => false

/-- `get_basic_track_info` (new_main.py 42-59). -/
def get_basic_track_info (env : Env) (track_id : String) : InfoDict :=
  match env.tracks with
  | .error e => { error := some ("Ошибка при получении основной информации: " ++ e) }
  | .ok track =>
    { title := some track.title,
      artists := some (String.intercalate ", " (track.artists.map UpArtist.name)),
      duration := some (format_duration (track.duration_ms / 1000)),
      album := some (match track.albums.head? with
        | some a => a.title
        | none => "Неизвестный альбом"),
      year := some (match track.albums.head? with
        | some a => a.year.getD "Неизвестно"
        | none => "Неизвестно"),
      genre := some (match track.albums.head? with
        | some a => a.genre.getD "Не указан"
        | none => "Не указан"),
      cover_url := some track.cover_url,
      track_id := some track_id,
      album_id := some (track.albums.head?.map UpAlbum.id) }

/-- One entry of `artists_info` (new_main.py 87-101): the success branch
sets five keys with `hasattr` fallbacks, the `except` branch only two. -/
def buildArtistInfo (env : Env) (a : UpArtist) : ArtistInfo :=
  match env.artistLookup a.id with
  | none => { name := a.name, id := a.id }
  | some d =>
    { name := a.name, id := a.id,
      genres := some (d.genres.getD []),
      tracks_count := some (match d.counts with
        | some c => (match c.tracks with
          | some n => toString n
          | none => "Неизвестно")
        | none => "Неизвестно"),
      albums_count := some (match d.counts with
        | some c => (match c.direct_albums with
          | some n => toString n
          | none => "Неизвестно")
        | none => "Неизвестно") }

/-- `get_extended_track_info` (new_main.py 62-151).  Each dictionary key is
given by the branch of the source that assigns it; the album block runs
only when `album_id` is truthy and the track has albums. -/
def get_extended_track_info (env : Env) (track_id : String) (album_id : Option String) :
    InfoDict :=
  match env.tracks with
  | .error e => { error := some ("Ошибка при получении расширенной информации: " ++ e) }
  | .ok track =>
    let albumData : Option UpAlbumDetail :=
      if optStrTruthy album_id && !track.albums.isEmpty then env.albumLookup else none
    { title := some track.title,
      artists := some (String.intercalate ", " (track.artists.map UpArtist.name)),
      duration := some (format_duration (track.duration_ms / 1000)),
      album := some (match track.albums.head? with
        | some a => a.title
        | none => "Неизвестный альбом"),
      year := some (match track.albums.head? with
        | some a => a.year.getD "Неизвестно"
        | none => "Неизвестно"),
      genre := some (match track.albums.head? with
        | some a => a.genre.getD "Не указан"
        | none => "Не указан"),
      cover_url := some track.cover_url,
      track_id := some track_id,
      album_id := some (track.albums.head?.map UpAlbum.id),
      album_tracks_count := albumData.map (fun al => match al.volumes.head? with
        | some v => v.length
        | none => 0),
      album_release_date := albumData.map (fun al => al.release_date.getD "Неизвестно"),
      album_label := albumData.map (fun al => al.label.getD "Не указан"),
      album_available := albumData.map (fun al => al.available.getD true),
      artists_detailed := some (track.artists.map (buildArtistInfo env)),
      similar_tracks := (match env.similar with
        | none => some []
        | some none => none
        | some (some l) => some ((l.take 5).map (fun t =>
            { title := t.title,
              artists := String.intercalate ", " (t.artists.map UpArtist.name),
              id := t.id }))),
      available := some (track.available.getD true),
      available_for_premium_users := some (track.available_for_premium_users.getD true),
      lyrics_available := some (track.lyrics_available.getD false),
      file_size := some (track.file_size.getD "Неизвестно"),
      version := some track.version,
      content_warning := some track.content_warning,
      explicit := some (track.explicit.getD false),
      track_number := some (track.track_number.getD 0),
      major := some track.major,
      chart_positions := (match env.chart with
        | none => some []
        | some items => some (((items.take 50).filter
            (fun i => i.track_id == track_id)).map
            (fun i => { position := i.position, progress := i.progress,
                        listeners := i.listeners }))) }

/-! ### The formatters (new_main.py 154-251) -/

/-- The two glyphs the source uses for boolean fields. -/
def boolGlyph (b : Bool) : String := if b then "✅" else "❌"

/-- `format_basic_info` (new_main.py 154-163); `none` = `KeyError`. -/
def format_basic_info (info : InfoDict) : Option String :=
  match info.error with
  | some e => some ("❌ " ++ e)
  | none =>
    info.title.bind fun title =>
    info.artists.bind fun artists =>
    info.duration.map fun duration =>
      "🎵 <b>" ++ title ++ "</b>\n" ++
      "👤 <b>Исполнитель:</b> " ++ artists ++ "\n" ++
      "⏱ <b>Длительность:</b> " ++ duration ++ "\n"

/-- Header and basic-info block of the extended formatter (171-179). -/
def headerBlock (title artists album year duration genre : String) : String :=
  "🎵 <b>" ++ title ++ "</b>\n\n" ++
  "📋 <b>Основная информация:</b>\n" ++
  "   👤 <b>Исполнитель:</b> " ++ artists ++ "\n" ++
  "   💿 <b>Альбом:</b> " ++ album ++ "\n" ++
  "   📅 <b>Год:</b> " ++ year ++ "\n" ++
  "   ⏱ <b>Длительность:</b> " ++ duration ++ "\n" ++
  "   🎭 <b>Жанр:</b> " ++ genre ++ "\n\n"

/-- One artist of the per-artist detail block (184-191). -/
def artistBlockLine (a : ArtistInfo) : String :=
  "   • <b>" ++ a.name ++ "</b>\n" ++
  (match a.genres with
    | some gs => if gs.isEmpty then "" else "     Жанры: " ++ String.intercalate ", " gs ++ "\n"
    | none => "") ++
  (match a.tracks_count with
    | some t => "     Треков: " ++ t ++ "\n"
    | none => "") ++
  (match a.albums_count with
    | some t => "     Альбомов: " ++ t ++ "\n"
    | none => "")

/-- Per-artist detail block (182-192): rendered iff the key is present. -/
def artistsDetailedBlock : Option (List ArtistInfo) → String
  | some l => "👥 <b>Детали об исполнителях:</b>\n" ++ String.join (l.map artistBlockLine) ++ "\n"
  | none => ""

/-- Album block (195-202): rendered iff `album_tracks_count` is present. -/
def albumBlock (atc : Option Nat) (ard : Option String) (albl : Option String) : String :=
  match atc with
  | none => ""
  | some n =>
    "💿 <b>Информация об альбоме:</b>\n" ++
    "   Всего треков: " ++ toString n ++ "\n" ++
    (match ard with
      | some d => "   Дата релиза: " ++ d ++ "\n"
      | none => "") ++
    (match albl with
      | some l => "   Лейбл: " ++ l ++ "\n"
      | none => "") ++
    "\n"

/-- Technical-information block (205-219): `.get` defaults, truthiness
guards on `version`, `content_warning` and `major`. -/
def techBlock (apu ly : Option Bool) (fs : Option String)
    (ve cw ma : Option (Option String)) (ex : Option Bool) (tn : Option Nat)
    (available : Bool) : String :=
  "🔧 <b>Техническая информация:</b>\n" ++
  "   Доступен: " ++ boolGlyph available ++ "\n" ++
  "   Для премиум: " ++ boolGlyph (apu.getD true) ++ "\n" ++
  "   Текст песни: " ++ boolGlyph (ly.getD false) ++ "\n" ++
  "   Размер файла: " ++ fs.getD "Неизвестно" ++ "\n" ++
  "   Явный контент: " ++ boolGlyph (ex.getD false) ++ "\n" ++
  (match ve.getD none with
    | some v => if v == "" then "" else "   Версия: " ++ v ++ "\n"
    | none => "") ++
  (match cw.getD none with
    | some w => if w == "" then "" else "   Предупреждение: " ++ w ++ "\n"
    | none => "") ++
  (match ma.getD none with
    | some m => if m == "" then "" else "   Лейбл: " ++ m ++ "\n"
    | none => "") ++
  "   Номер трека в альбоме: " ++ toString (tn.getD 0) ++ "\n\n"

/-- Numbered lines of the similar-tracks block (`enumerate(..., 1)`). -/
def similarLines (i : Nat) : List SimilarTrack → String
  | [] => ""
  | t :: ts =>
    "   " ++ toString i ++ ". " ++ t.title ++ " - " ++ t.artists ++ "\n" ++
    similarLines (i + 1) ts

/-- Similar-tracks block (222-226): rendered iff the value is a nonempty
list; only the first three entries are shown. -/
def similarBlock : Option (List SimilarTrack) → String
  | some (t :: ts) => "🎶 <b>Похожие треки:</b>\n" ++ similarLines 1 ((t :: ts).take 3) ++ "\n"
  | _ => ""

/-- The trend marker of a chart line (232-238). -/
def trendMarker (progress : Option String) : String :=
  if progress == some "up" then "🔺"
  else if progress == some "down" then "🔻"
  else if progress == some "new" then "🆕"
  else ""

/-- One chart line (240-243): the listener count is appended only when the
value is truthy (present and nonzero). -/
def chartLine (pos : ChartPos) : String :=
  "   " ++ trendMarker pos.progress ++ " Позиция: " ++ toString pos.position ++
  (match pos.listeners with
    | some n => if n != 0 then " (👂 " ++ toString n ++ ")" else ""
    | none => "") ++
  "\n"

/-- Chart block (229-243): rendered iff the value is a nonempty list. -/
def chartBlock : Option (List ChartPos) → String
  | some (p :: ps) => "🏆 <b>Позиции в чартах:</b>\n" ++ String.join ((p :: ps).map chartLine)
  | _ => ""

/-- Cover link (246-247): rendered iff `info['cover_url']` is truthy. -/
def coverBlock : Option String → String
  | some u => if u == "" then "" else "\n🖼 <a href=\x27" ++ u ++ "\x27>Обложка альбома</a>"
  | none => ""

/-- `format_extended_info` (new_main.py 166-251); `none` = `KeyError`.
The keys indexed unconditionally are bound in the source's raise order. -/
def format_extended_info (info : InfoDict) : Option String :=
  match info.error with
  | some e => some ("❌ " ++ e)
  | none =>
    info.title.bind fun title =>
    info.artists.bind fun artists =>
    info.album.bind fun album =>
    info.year.bind fun year =>
    info.duration.bind fun duration =>
    info.genre.bind fun genre =>
    info.available.bind fun available =>
    info.cover_url.bind fun cover_url =>
    info.track_id.map fun tid =>
      headerBlock title artists album year duration genre ++
      artistsDetailedBlock info.artists_detailed ++
      albumBlock info.album_tracks_count info.album_release_date info.album_label ++
      techBlock info.available_for_premium_users info.lyrics_available info.file_size
        info.version info.content_warning info.major info.explicit info.track_number
        available ++
      similarBlock info.similar_tracks ++
      chartBlock info.chart_positions ++
      coverBlock cover_url ++
      "\n🎧 <a href=\x27https://music.yandex.ru/track/" ++ tid ++
      "\x27>Слушать на Яндекс.Музыке</a>"

/-! ### Track-id selection in the button callback (new_main.py 303-315) -/

/-- Python `str.split` with a one-character separator, keeping empties. -/
def splitSep (sep : Char) : List Char → List (List Char)
  | [] => [[]]
  | c :: cs =>
    match splitSep sep cs with
    | [] => [[]]
    | h :: t => if c = sep then [] :: h :: t else (c :: h) :: t

/-- The track id used by `button_callback`:
`data_parts[1] if len(data_parts) > 1 else context.user_data.get('track_id')`. -/
def button_track_id (callback_data : List Char) (session : Option (List Char)) :
    Option (List Char) :=
  let parts := splitSep '_' callback_data
  if 1 < parts.length then parts.get? 1 else session

/-! ### Sample data for concrete evaluations -/

/-- A track whose optional attributes are all absent and whose album list
is empty: every placeholder path of the providers is taken. -/
def bareTrack : UpTrack :=
  { title := "Song", artists := [{ name := "A", id := "7" }], duration_ms := 185000,
    albums := [], cover_url := none, available := none,
    available_for_premium_users := none, lyrics_available := none,
    file_size := none, version := none, content_warning := none,
    explicit := none, track_number := none, major := none }

/-- An environment where every best-effort sub-lookup comes back empty. -/
def bareEnv : Env :=
  { tracks := .ok bareTrack, albumLookup := none,
    artistLookup := fun _ => none, similar := some none, chart := none }

/-- The extended display string for `bareTrack`. -/
def extOutBare : String :=
  (format_extended_info (get_extended_track_info bareEnv "42" none)).getD ""

/-- Five similar tracks, for the truncation claim C7. -/
def sampleSimilar : List SimilarTrack :=
  [ { title := "T1", artists := "A1", id := "1" },
    { title := "T2", artists := "A2", id := "2" },
    { title := "T3", artists := "A3", id := "3" },
    { title := "T4", artists := "A4", id := "4" },
    { title := "T5", artists := "A5", id := "5" } ]

/-- A complete metadata dictionary carrying the five similar tracks. -/
def sampleInfo5 : InfoDict :=
  { title := some "Song", artists := some "A", duration := some "3:05",
    album := some "Al", year := some "2020", genre := some "rock",
    cover_url := some none, track_id := some "42",
    available := some true,
    similar_tracks := some sampleSimilar }

/-- Substring test: does `pat` head the input? -/
def leadsWith : List Char → List Char → Bool
  | [], _ => true
  | _ :: _, [] => false
  | p :: ps, c :: cs => p == c && leadsWith ps cs

/-- Substring test: does `pat` occur anywhere in the input? -/
def hasSub (pat : List Char) : List Char → Bool
  | [] => leadsWith pat []
  | c :: cs => leadsWith pat (c :: cs) || hasSub pat cs

/-- The keys `format_extended_info` indexes unconditionally (new_main.py
lines 171-179, 206, 246, 249). -/
def requiredKeysPresent (info : InfoDict) : Bool :=
  info.title.isSome && info.artists.isSome && info.album.isSome && info.year.isSome
    && info.duration.isSome && info.genre.isSome && info.available.isSome
    && info.cover_url.isSome && info.track_id.isSome

/-! ## Theorems -/

/-! ### Extractor lemmas -/

theorem dropLit_eq_some {lit cs r : List Char} (h : dropLit lit cs = some r) :
    cs = lit ++ r := by
  induction lit generalizing cs with
  | nil =>
    simp only [dropLit, Option.some.injEq] at h
    simp [h]
  | cons l ls ih =>
    cases cs with
    | nil => simp [dropLit] at h
    | cons c cs' =>
      by_cases hc : c = l
      · subst hc
        simp only [dropLit, if_pos rfl] at h
        simp [ih h]
      · simp [dropLit, hc] at h

theorem dropLit_append (lit r : List Char) : dropLit lit (lit ++ r) = some r := by
  induction lit with
  | nil => rfl
  | cons l ls ih => simp [dropLit, ih]

theorem takeDigits_append_dropDigits (cs : List Char) :
    takeDigits cs ++ dropDigits cs = cs := by
  induction cs with
  | nil => rfl
  | cons c cs ih => cases h : c.isDigit <;> simp [takeDigits, dropDigits, h, ih]

theorem takeDigits_all (cs : List Char) : (takeDigits cs).all Char.isDigit = true := by
  induction cs with
  | nil => rfl
  | cons c cs ih => cases h : c.isDigit <;> simp [takeDigits, h, ih]

theorem regexSearch_eq_none {m : List Char → Option (List Char)} {s : List Char}
    (h : regexSearch m s = none) : ∀ i, m (s.drop i) = none := by
  induction s with
  | nil =>
    intro i
    simpa [List.drop_nil] using h
  | cons c cs ih =>
    have h1 : m (c :: cs) = none := by
      cases hm : m (c :: cs) with
      | none => rfl
      | some t => simp [regexSearch, hm] at h
    have h2 : regexSearch m cs = none := by
      simpa [regexSearch, h1] using h
    intro i
    cases i with
    | zero => exact h1
    | succ j => simpa using ih h2 j

theorem regexSearch_eq_some {m : List Char → Option (List Char)} {s t : List Char}
    (h : regexSearch m s = some t) : ∃ i, m (s.drop i) = some t := by
  induction s with
  | nil => exact ⟨0, h⟩
  | cons c cs ih =>
    cases hm : m (c :: cs) with
    | some u =>
      simp only [regexSearch, hm] at h
      exact ⟨0, by simpa [hm] using h⟩
    | none =>
      have h2 : regexSearch m cs = some t := by simpa [regexSearch, hm] using h
      obtain ⟨i, hi⟩ := ih h2
      exact ⟨i + 1, by simpa using hi⟩

theorem regexSearch_isSome {m : List Char → Option (List Char)} {s : List Char} (i : Nat)
    (h : (m (s.drop i)).isSome = true) : (regexSearch m s).isSome = true := by
  cases hr : regexSearch m s with
  | some t => rfl
  | none =>
    rw [regexSearch_eq_none hr i] at h
    simp at h

theorem matchTrackAt_shape (v : List Char) :
    (matchTrackAt ("track/123456".toList ++ v)).isSome = true := rfl

theorem matchPlaylistAt_shape (v : List Char) :
    (matchPlaylistAt ("playlists/1/2?trackId=123456".toList ++ v)).isSome = true := rfl

theorem regexSearch_isSome_of_contains {m : List Char → Option (List Char)}
    {pat s : List Char} (hm : ∀ v, (m (pat ++ v)).isSome = true)
    (h : List.IsInfix pat s) : (regexSearch m s).isSome = true := by
  obtain ⟨u, v, huv⟩ := h
  refine regexSearch_isSome u.length ?_
  have hdrop : s.drop u.length = pat ++ v := by
    rw [← huv, List.append_assoc, List.drop_left]
  rw [hdrop]
  exact hm v

theorem track_contained_of_album_contained {s : List Char}
    (h : List.IsInfix ("album/1/track/123456".toList) s) :
    List.IsInfix ("track/123456".toList) s :=
  List.IsInfix.trans ⟨"album/1/".toList, [], by decide⟩ h

theorem extract_isSome_of_search1 {s : List Char}
    (h : (regexSearch matchTrackAt s).isSome = true) :
    (extract_track_id s).isSome = true := by
  unfold extract_track_id
  cases hr : regexSearch matchTrackAt s with
  | some t => rfl
  | none => rw [hr] at h; simp at h

theorem extract_isSome_of_search3 {s : List Char}
    (h : (regexSearch matchPlaylistAt s).isSome = true) :
    (extract_track_id s).isSome = true := by
  unfold extract_track_id
  cases hr1 : regexSearch matchTrackAt s with
  | some t => rfl
  | none =>
    cases hr2 : regexSearch matchAlbumTrackAt s with
    | some t => rfl
    | none => exact h

/-! ### Claim C1 -/

/-- Claim C1 is false as stated: `track/1234567` contains the link shape
`track/123456` as a substring, yet the extractor returns `"1234567"` (the
greedy digit run), not `"123456"`. -/
theorem C1_counterexample :
    List.IsInfix ("track/123456".toList) ("track/1234567".toList)
  ∧ extract_track_id ("track/1234567".toList) = some ("1234567".toList)
  ∧ some ("1234567".toList) ≠ some ("123456".toList) :=
  ⟨⟨[], ['7'], by decide⟩, by decide, by decide⟩

/-- Claim C1, amended: on every string containing one of the three link
shapes the extractor (both variants are the same code) returns some
identifier, and it returns exactly `"123456"` when the shape occurrence is
the first pattern match and its digit run is maximal — in particular on
the three canonical URLs. -/
theorem C1_amended :
    (∀ s : List Char,
        (List.IsInfix ("track/123456".toList) s
          ∨ List.IsInfix ("album/1/track/123456".toList) s
          ∨ List.IsInfix ("playlists/1/2?trackId=123456".toList) s) →
        (extract_track_id s).isSome = true)
  ∧ extract_track_id ("https://music.yandex.ru/track/123456".toList)
      = some ("123456".toList)
  ∧ extract_track_id ("https://music.yandex.ru/album/1/track/123456".toList)
      = some ("123456".toList)
  ∧ extract_track_id ("https://music.yandex.ru/playlists/1/2?trackId=123456".toList)
      = some ("123456".toList) := by
  refine ⟨?_, by decide, by decide, by decide⟩
  intro s h
  rcases h with h | h | h
  · exact extract_isSome_of_search1 (regexSearch_isSome_of_contains matchTrackAt_shape h)
  · exact extract_isSome_of_search1
      (regexSearch_isSome_of_contains matchTrackAt_shape (track_contained_of_album_contained h))
  · exact extract_isSome_of_search3 (regexSearch_isSome_of_contains matchPlaylistAt_shape h)

/-- Witness for C1_amended at a concrete input. -/
theorem C1_witness : (extract_track_id ("see track/123456 now".toList)).isSome = true :=
  C1_amended.1 ("see track/123456 now".toList)
    (Or.inl ⟨"see ".toList, " now".toList, by decide⟩)

/-! ### Claim C5 -/

theorem matchTrackAt_digits {cs t : List Char} (h : matchTrackAt cs = some t) :
    t ≠ [] ∧ t.all Char.isDigit = true := by
  unfold matchTrackAt at h
  split at h
  · exact Option.noConfusion h
  · split at h
    · exact Option.noConfusion h
    · rename_i h2
      injection h with h
      subst h
      exact ⟨by simpa [List.isEmpty_iff] using h2, takeDigits_all _⟩

theorem matchAlbumTrackAt_digits {cs t : List Char} (h : matchAlbumTrackAt cs = some t) :
    t ≠ [] ∧ t.all Char.isDigit = true := by
  unfold matchAlbumTrackAt at h
  split at h
  · exact Option.noConfusion h
  · split at h
    · exact Option.noConfusion h
    · split at h
      · exact Option.noConfusion h
      · split at h
        · exact Option.noConfusion h
        · rename_i h2
          injection h with h
          subst h
          exact ⟨by simpa [List.isEmpty_iff] using h2, takeDigits_all _⟩

theorem matchPlaylistAt_digits {cs t : List Char} (h : matchPlaylistAt cs = some t) :
    t ≠ [] ∧ t.all Char.isDigit = true := by
  unfold matchPlaylistAt at h
  split at h
  · exact Option.noConfusion h
  · split at h
    · exact Option.noConfusion h
    · split at h
      · exact Option.noConfusion h
      · split at h
        · exact Option.noConfusion h
        · split at h
          · exact Option.noConfusion h
          · split at h
            · exact Option.noConfusion h
            · rename_i h2
              injection h with h
              subst h
              exact ⟨by simpa [List.isEmpty_iff] using h2, takeDigits_all _⟩

/-- Claim C5: the extractor is total (it is a Lean function returning an
`Option`: no exception), and whenever it returns an identifier, that
identifier is a nonempty string of digit characters. -/
theorem C5_extractor_digits (s t : List Char) (h : extract_track_id s = some t) :
    t ≠ [] ∧ t.all Char.isDigit = true := by
  unfold extract_track_id at h
  cases h1 : regexSearch matchTrackAt s with
  | some u =>
    rw [h1] at h
    injection h with h
    subst h
    obtain ⟨i, hi⟩ := regexSearch_eq_some h1
    exact matchTrackAt_digits hi
  | none =>
    rw [h1] at h
    cases h2 : regexSearch matchAlbumTrackAt s with
    | some u =>
      rw [h2] at h
      injection h with h
      subst h
      obtain ⟨i, hi⟩ := regexSearch_eq_some h2
      exact matchAlbumTrackAt_digits hi
    | none =>
      rw [h2] at h
      obtain ⟨i, hi⟩ := regexSearch_eq_some h
      exact matchPlaylistAt_digits hi

/-- Witness for C5_extractor_digits at a concrete input. -/
theorem C5_witness : "7".toList ≠ [] ∧ ("7".toList).all Char.isDigit = true :=
  C5_extractor_digits ("track/7".toList) ("7".toList) (by decide)

/-! ### Claim C9 -/

theorem matchAlbumTrackAt_implies_track {cs t : List Char}
    (h : matchAlbumTrackAt cs = some t) :
    ∃ i, (matchTrackAt (cs.drop i)).isSome = true := by
  unfold matchAlbumTrackAt at h
  cases h1 : dropLit ("album/".toList) cs with
  | none => rw [h1] at h; exact Option.noConfusion h
  | some r1 =>
    rw [h1] at h
    by_cases h2 : (takeDigits r1).isEmpty = true
    · simp [h2] at h
    · simp only [h2, if_false, Bool.false_eq_true] at h
      cases h3 : dropLit ("/track/".toList) (dropDigits r1) with
      | none => rw [h3] at h; exact Option.noConfusion h
      | some r2 =>
        rw [h3] at h
        by_cases h4 : (takeDigits r2).isEmpty = true
        · simp [h4] at h
        · have e2 : dropDigits r1 = "/track/".toList ++ r2 := dropLit_eq_some h3
          have hcs : cs = ("album/".toList ++ takeDigits r1 ++ ['/'])
              ++ ("track/".toList ++ r2) := by
            calc cs = "album/".toList ++ r1 := dropLit_eq_some h1
              _ = "album/".toList ++ (takeDigits r1 ++ dropDigits r1) := by
                    rw [takeDigits_append_dropDigits]
              _ = "album/".toList ++ (takeDigits r1 ++ ("/track/".toList ++ r2)) := by
                    rw [e2]
              _ = ("album/".toList ++ takeDigits r1 ++ ['/'])
                    ++ ("track/".toList ++ r2) := by simp
          refine ⟨("album/".toList ++ takeDigits r1 ++ ['/']).length, ?_⟩
          rw [hcs, List.drop_left]
          unfold matchTrackAt
          rw [dropLit_append]
          simp [h4]

/-- Claim C9: removing the second pattern `album/\d+/track/(\d+)` does not
change the extractor: whenever that pattern matches anywhere, the first
pattern `track/(\d+)` also matches somewhere, so the first search already
succeeded and the second branch never determines the result. -/
theorem C9_album_branch_redundant (s : List Char) :
    extract_track_id s = extract_track_id_no_album s := by
  unfold extract_track_id extract_track_id_no_album
  cases h1 : regexSearch matchTrackAt s with
  | some t => rfl
  | none =>
    cases h2 : regexSearch matchAlbumTrackAt s with
    | none => rfl
    | some t =>
      exfalso
      obtain ⟨i, hi⟩ := regexSearch_eq_some h2
      obtain ⟨j, hj⟩ := matchAlbumTrackAt_implies_track hi
      rw [List.drop_drop] at hj
      rw [regexSearch_eq_none h1 (i + j)] at hj
      simp at hj

/-! ### Claim C3 -/

/-- Claim C3: `format_duration` (a total function on the non-negative
integers, defined exactly by division by 60 with the remainder
zero-padded to two digits) gives the five reference values, including
`3600 ↦ "60:00"` with no hour rollover. -/
theorem C3_format_duration :
    format_duration 0 = "0:00" ∧ format_duration 59 = "0:59"
  ∧ format_duration 60 = "1:00" ∧ format_duration 125 = "2:05"
  ∧ format_duration 3600 = "60:00" :=
  ⟨rfl, rfl, rfl, rfl, rfl⟩

/-! ### Claim C4 -/

/-- Claim C4 is false as stated: with session state `"222"` present and a
payload carrying `"111"`, the handler uses the payload value, not the
session value — the code is payload-first, not session-first. -/
theorem C4_counterexample :
    button_track_id ("basic_111".toList) (some ("222".toList)) = some ("111".toList)
  ∧ some ("111".toList) ≠ some ("222".toList) :=
  ⟨by decide, by decide⟩

/-- Claim C4, amended: on a button selection the handler takes the track
identifier embedded in the choice payload whenever the payload has a
second underscore-separated part, and falls back to the per-chat session
state only when it does not (inline payload first, session state second). -/
theorem C4_amended (cb : List Char) (session : Option (List Char)) :
    (1 < (splitSep '_' cb).length →
        button_track_id cb session = (splitSep '_' cb).get? 1)
  ∧ (¬ 1 < (splitSep '_' cb).length → button_track_id cb session = session) := by
  unfold button_track_id
  constructor <;> intro h <;> simp [h]

/-- Witness for C4_amended at a concrete payload and session state. -/
theorem C4_witness :
    button_track_id ("extended_99".toList) (some ("5".toList)) = some ("99".toList) := by
  rw [(C4_amended ("extended_99".toList) (some ("5".toList))).1 (by decide)]
  decide

/-! ### Claim C6 -/

/-- Claim C6: on an error record both formatters return the single
error-marker line `"❌ " ++ msg`, which embeds the message text and adds
no line break of its own (the output has none whenever the message has
none). -/
theorem C6_error_single_line (info : InfoDict) (msg : String)
    (h : info.error = some msg) :
    format_basic_info info = some ("❌ " ++ msg)
  ∧ format_extended_info info = some ("❌ " ++ msg)
  ∧ (msg.toList.all (fun c => !(c == '\n')) = true →
      ("❌ " ++ msg).toList.all (fun c => !(c == '\n')) = true) := by
  refine ⟨?_, ?_, ?_⟩
  · unfold format_basic_info
    rw [h]
  · unfold format_extended_info
    rw [h]
  · intro hm
    have e : ("❌ " ++ msg).toList = "❌ ".toList ++ msg.toList := by
      simp [String.toList, String.data_append]
    rw [e, List.all_append, hm]
    decide

/-- Witness for C6_error_single_line at a concrete error record. -/
theorem C6_witness :
    format_basic_info ({ error := some "boom" } : InfoDict) = some ("❌ " ++ "boom")
  ∧ format_extended_info ({ error := some "boom" } : InfoDict) = some ("❌ " ++ "boom")
  ∧ ("boom".toList.all (fun c => !(c == '\n')) = true →
      ("❌ " ++ "boom").toList.all (fun c => !(c == '\n')) = true) :=
  C6_error_single_line ({ error := some "boom" } : InfoDict) "boom" rfl

/-! ### Claims C2 and C10: the formatters never raise on provider records -/

theorem format_basic_get_basic_isSome (env : Env) (tid : String) :
    (format_basic_info (get_basic_track_info env tid)).isSome = true := by
  unfold get_basic_track_info
  cases env.tracks with
  | error e => rfl
  | ok track => rfl

theorem format_extended_get_extended_isSome (env : Env) (tid : String)
    (aid : Option String) :
    (format_extended_info (get_extended_track_info env tid aid)).isSome = true := by
  unfold get_extended_track_info
  cases env.tracks with
  | error e => rfl
  | ok track => rfl

/-- Claim C2: for every environment — in particular with any subset of
the upstream optional attributes missing — the formatters applied to the
providers' records return a string, never a `KeyError`; an absent album,
year or genre becomes the fixed placeholder value in the record; and the
fully-bare track's extended display contains the three placeholders and
no `None` marker. -/
theorem C2_formatters_never_raise :
    (∀ (env : Env) (tid : String) (aid : Option String),
        (format_basic_info (get_basic_track_info env tid)).isSome = true
      ∧ (format_extended_info (get_extended_track_info env tid aid)).isSome = true)
  ∧ (∀ (env : Env) (tid : String) (track : UpTrack),
        env.tracks = .ok track → track.albums = [] →
        (get_basic_track_info env tid).album = some "Неизвестный альбом"
      ∧ (get_basic_track_info env tid).year = some "Неизвестно"
      ∧ (get_basic_track_info env tid).genre = some "Не указан")
  ∧ hasSub ("Неизвестный альбом".toList) extOutBare.toList = true
  ∧ hasSub ("Неизвестно".toList) extOutBare.toList = true
  ∧ hasSub ("Не указан".toList) extOutBare.toList = true
  ∧ hasSub ("None".toList) extOutBare.toList = false := by
  refine ⟨fun env tid aid => ⟨format_basic_get_basic_isSome env tid,
      format_extended_get_extended_isSome env tid aid⟩,
    ?_, by decide, by decide, by decide, by decide⟩
  intro env tid track henv halb
  unfold get_basic_track_info
  rw [henv]
  simp [halb]

/-- Witness for C2_formatters_never_raise at the bare environment. -/
theorem C2_witness :
    (get_basic_track_info bareEnv "42").album = some "Неизвестный альбом"
  ∧ (get_basic_track_info bareEnv "42").year = some "Неизвестно"
  ∧ (get_basic_track_info bareEnv "42").genre = some "Не указан" :=
  C2_formatters_never_raise.2.1 bareEnv "42" bareTrack rfl rfl

/-- Claim C10: every non-error record of `get_extended_track_info`
carries all keys `format_extended_info` indexes unconditionally; any
error-free record with those keys formats without raising — hence the
composition never raises — while the empty dictionary does make
`format_extended_info` raise (`none`). -/
theorem C10_extended_safe :
    (∀ (env : Env) (tid : String) (aid : Option String),
        (get_extended_track_info env tid aid).error = none →
        requiredKeysPresent (get_extended_track_info env tid aid) = true
      ∧ (format_extended_info (get_extended_track_info env tid aid)).isSome = true)
  ∧ (∀ info : InfoDict, info.error = none → requiredKeysPresent info = true →
        (format_extended_info info).isSome = true)
  ∧ format_extended_info {} = none := by
  refine ⟨?_, ?_, rfl⟩
  · intro env tid aid h
    unfold get_extended_track_info
    cases henv : env.tracks with
    | error e =>
      unfold get_extended_track_info at h
      rw [henv] at h
      simp at h
    | ok track => exact ⟨rfl, rfl⟩
  · intro info he hk
    obtain ⟨err, title, artists, duration, album, year, genre, cover_url, track_id,
      album_id, atc, ard, albl, aav, ad, st, av, apu, ly, fs, ve, cw, ex, tn, ma, cp⟩ := info
    have he' : err = none := he
    subst he'
    cases title with
    | none => exact Bool.noConfusion hk
    | some t1 =>
      cases artists with
      | none => exact Bool.noConfusion hk
      | some t2 =>
        cases album with
        | none => exact Bool.noConfusion hk
        | some t3 =>
          cases year with
          | none => exact Bool.noConfusion hk
          | some t4 =>
            cases duration with
            | none => exact Bool.noConfusion hk
            | some t5 =>
              cases genre with
              | none => exact Bool.noConfusion hk
              | some t6 =>
                cases av with
                | none => exact Bool.noConfusion hk
                | some t7 =>
                  cases cover_url with
                  | none => exact Bool.noConfusion hk
                  | some t8 =>
                    cases track_id with
                    | none => exact Bool.noConfusion hk
                    | some t9 => rfl

/-- Witness for C10_extended_safe at the bare environment. -/
theorem C10_witness :
    requiredKeysPresent (get_extended_track_info bareEnv "42" none) = true
  ∧ (format_extended_info (get_extended_track_info bareEnv "42" none)).isSome = true :=
  C10_extended_safe.1 bareEnv "42" none rfl

/-! ### Claim C7 -/

theorem similarBlock_take_three (l : List SimilarTrack) :
    similarBlock (some (l.take 3)) = similarBlock (some l) := by
  cases l with
  | nil => rfl
  | cons x xs => simp [similarBlock, List.take_succ_cons, List.take_take]

/-- Claim C7: for any error-free record with at most five similar tracks
the extended formatter shows only the first three — replacing the list by
its first three entries leaves the output unchanged — and at the concrete
five-entry record the three shown lines are numbered 1 to 3 in the
provided order, with entries four and five absent. -/
theorem C7_similar_first_three :
    (∀ (info : InfoDict) (l : List SimilarTrack),
        info.error = none → info.similar_tracks = some l → l.length ≤ 5 →
        format_extended_info info
          = format_extended_info { info with similar_tracks := some (l.take 3) })
  ∧ hasSub (("   1. T1 - A1\n   2. T2 - A2\n   3. T3 - A3\n").toList)
      ((format_extended_info sampleInfo5).getD "").toList = true
  ∧ hasSub ("T4".toList) ((format_extended_info sampleInfo5).getD "").toList = false
  ∧ hasSub ("T5".toList) ((format_extended_info sampleInfo5).getD "").toList = false := by
  refine ⟨?_, by decide, by decide, by decide⟩
  intro info l he hs _h5
  unfold format_extended_info
  simp only [he, hs, similarBlock_take_three]

/-- Witness for C7_similar_first_three at the five-entry record. -/
theorem C7_witness :
    format_extended_info sampleInfo5
      = format_extended_info
          { sampleInfo5 with similar_tracks := some (sampleSimilar.take 3) } :=
  C7_similar_first_three.1 sampleInfo5 sampleSimilar rfl rfl (by decide)

/-! ### Claim C8 -/

/-- Claim C8 is false in its listener clause: a chart entry whose
listener count is present but zero is rendered without the listener
suffix — the count is appended only when truthy, not merely present. -/
theorem C8_counterexample :
    chartLine { position := 10, progress := some "up", listeners := some 0 }
      = "   🔺 Позиция: 10\n"
  ∧ hasSub ("👂".toList)
      (chartLine { position := 10, progress := some "up", listeners := some 0 }).toList
      = false :=
  ⟨rfl, rfl⟩

/-- Claim C8, amended: the three trend values render three pairwise
distinct markers; any other trend value renders no marker while the
position is still shown; and the listener count is appended exactly when
it is present and nonzero (a present-but-zero count renders as if
absent). -/
theorem C8_amended :
    (trendMarker (some "up") = "🔺" ∧ trendMarker (some "down") = "🔻"
      ∧ trendMarker (some "new") = "🆕"
      ∧ trendMarker (some "up") ≠ trendMarker (some "down")
      ∧ trendMarker (some "up") ≠ trendMarker (some "new")
      ∧ trendMarker (some "down") ≠ trendMarker (some "new"))
  ∧ (∀ tr : Option String, tr ≠ some "up" → tr ≠ some "down" → tr ≠ some "new" →
        trendMarker tr = "")
  ∧ (∀ (p : Nat) (tr : Option String) (n : Nat), n ≠ 0 →
        chartLine { position := p, progress := tr, listeners := some n }
          = "   " ++ trendMarker tr ++ " Позиция: " ++ toString p
            ++ " (👂 " ++ toString n ++ ")" ++ "\n")
  ∧ (∀ (p : Nat) (tr : Option String),
        chartLine { position := p, progress := tr, listeners := none }
          = "   " ++ trendMarker tr ++ " Позиция: " ++ toString p ++ "\n")
  ∧ (∀ (p : Nat) (tr : Option String),
        chartLine { position := p, progress := tr, listeners := some 0 }
          = chartLine { position := p, progress := tr, listeners := none }) := by
  refine ⟨⟨rfl, rfl, rfl, by decide, by decide, by decide⟩, ?_, ?_, ?_, ?_⟩
  · intro tr h1 h2 h3
    have e1 : (tr == some "up") = false := beq_eq_false_iff_ne.mpr h1
    have e2 : (tr == some "down") = false := beq_eq_false_iff_ne.mpr h2
    have e3 : (tr == some "new") = false := beq_eq_false_iff_ne.mpr h3
    simp [trendMarker, e1, e2, e3]
  · intro p tr n hn
    have e : (n != 0) = true := bne_iff_ne.mpr hn
    simp [chartLine, e, String.append_assoc]
  · intro p tr
    simp [chartLine, String.append_assoc]
  · intro p tr
    simp [chartLine]

/-- Witness for C8_amended at the spec's example entry. -/
theorem C8_witness :
    chartLine { position := 10, progress := some "up", listeners := some 500 }
      = "   🔺 Позиция: 10 (👂 500)\n" := by
  rw [C8_amended.2.2.1 10 (some "up") 500 (by decide)]
  rfl

end UpSound

